import Mathlib

/-
Verification of the homeworq scheduler core against its specification.

The Python source is shallowly embedded: datetimes are a record of
numeric fields compared through a serial encoding, fallible operations
return Except, the retry loop is structural recursion on a budget, and
the cron search loop is fuel-indexed.
-/

/-- Embedding of a Python datetime value: year, month, day, hour, minute,
second.  Microseconds never matter to the scheduler (they are always
zeroed before use), so they are not modelled. -/
structure PyDateTime where
  year : Nat
  month : Nat
  day : Nat
  hour : Nat
  minute : Nat
  second : Nat
deriving DecidableEq, Repr

/-- Gregorian leap year rule, as used by Python datetime. -/
def is_leap (y : Nat) : Bool :=
  y % 4 == 0 && (!(y % 100 == 0) || y % 400 == 0)

/-- Length of a month in the proleptic Gregorian calendar. -/
def days_in_month (y m : Nat) : Nat :=
  if m = 2 then (if is_leap y then 29 else 28)
  else if m = 4 ∨ m = 6 ∨ m = 9 ∨ m = 11 then 30
  else 31

/-- Days in all years strictly before year y (proleptic Gregorian). -/
def days_before_year (y : Nat) : Nat :=
  365 * (y - 1) + (y - 1) / 4 + (y - 1) / 400 - (y - 1) / 100

/-- Days in the months of year y strictly before month m. -/
def days_before_month (y m : Nat) : Nat :=
  (((List.range (m - 1)).map (fun i => days_in_month y (i + 1)))).sum

/-- Rata die day number: 0001-01-01 has number 1. -/
def rata_die (y m d : Nat) : Nat :=
  days_before_year y + days_before_month y m + d

/-- Python date.weekday(): Monday = 0, Sunday = 6.
0001-01-01 (rata die 1) was a Monday. -/
def py_weekday (y m d : Nat) : Nat :=
  (rata_die y m d + 6) % 7

/-- Serial second count of a datetime.  For valid field values this is
strictly monotone in the field-lexicographic (chronological) order that
Python datetime comparison uses. -/
def PyDateTime.to_serial (d : PyDateTime) : Nat :=
  ((rata_die d.year d.month d.day) * 24 + d.hour) * 3600 + d.minute * 60 + d.second

instance : LE PyDateTime := ⟨fun a b => a.to_serial ≤ b.to_serial⟩

instance : LT PyDateTime := ⟨fun a b => a.to_serial < b.to_serial⟩

instance (a b : PyDateTime) : Decidable (a ≤ b) :=
  inferInstanceAs (Decidable (a.to_serial ≤ b.to_serial))

instance (a b : PyDateTime) : Decidable (a < b) :=
  inferInstanceAs (Decidable (a.to_serial < b.to_serial))

/-- Embedding of datetime construction / datetime.replace: the result is
validated field by field and a ValueError is raised on the first field
out of range, exactly as the Python constructor does. -/
def mkValid (year month day hour minute second : Nat) : Except String PyDateTime :=
  if year < 1 ∨ 9999 < year then .error "ValueError: year is out of range"
  else if month < 1 ∨ 12 < month then .error "ValueError: month must be in 1..12"
  else if day < 1 ∨ days_in_month year month < day then
    .error "ValueError: day is out of range for month"
  else if 23 < hour then .error "ValueError: hour must be in 0..23"
  else if 59 < minute then .error "ValueError: minute must be in 0..59"
  else if 59 < second then .error "ValueError: second must be in 0..59"
  else .ok ⟨year, month, day, hour, minute, second⟩

/-- Advance a datetime by one calendar day (used to embed timedelta day
arithmetic). -/
def next_day (d : PyDateTime) : PyDateTime :=
  if d.day < days_in_month d.year d.month then { d with day := d.day + 1 }
  else if d.month < 12 then { d with month := d.month + 1, day := 1 }
  else { d with year := d.year + 1, month := 1, day := 1 }

/-- Embedding of adding timedelta(days = n) to a datetime. -/
def add_days : Nat → PyDateTime → PyDateTime
  | 0, d => d
  | n + 1, d => add_days n (next_day d)

/-- Embedding of adding timedelta(seconds = k) to a datetime: the
time-of-day is normalised and whole days carry into the date. -/
def add_seconds (k : Nat) (d : PyDateTime) : PyDateTime :=
  let tot := d.hour * 3600 + d.minute * 60 + d.second + k
  add_days (tot / 86400)
    { d with hour := tot % 86400 / 3600,
             minute := tot % 86400 % 3600 / 60,
             second := tot % 86400 % 60 }

namespace CronParser

/-- Parsed cron fields: sorted lists of allowed values for minute, hour,
day of month, month and day of week (source attribute self.fields). -/
structure CronFields where
  minute : List Nat
  hour : List Nat
  day : List Nat
  month : List Nat
  dayOfWeek : List Nat
deriving DecidableEq, Repr

/-- Split a character list at every occurrence of a separator character
(the pieces keep their order; an empty input gives one empty piece).
This is structural recursion, so it evaluates inside the kernel, unlike
String.splitOn. -/
def split_on_char (c : Char) : List Char → List (List Char)
  | [] => [[]]
  | x :: xs =>
    let rest := split_on_char c xs
    if x == c then [] :: rest
    else
      match rest with
      | [] => [[x]]
      | h :: t => (x :: h) :: t

/-- Decimal reading of a nonempty all-digit character list. -/
def digits_to_nat (l : List Char) : Option Nat :=
  if !l.isEmpty && l.all (fun c => c.isDigit) then
    some (l.foldl (fun acc c => acc * 10 + (c.toNat - 48)) 0)
  else none

/-- Integer parsing as used for cron tokens (Python int, restricted to
the nonnegative numerals cron fields contain). -/
def toNatE (s : List Char) : Except String Nat :=
  match digits_to_nat s with
  | some n => .ok n
  | none => .error "ValueError: invalid literal for int"

/-- Inclusive integer range lo..hi, i.e. Python range(lo, hi + 1). -/
def range_incl (lo hi : Nat) : List Nat :=
  (List.range (hi + 1 - lo)).map (fun i => lo + i)

/-- Python range(start, stop, step) for a positive step. -/
def range_step (start stop step : Nat) : List Nat :=
  (List.range ((stop - start + step - 1) / step)).map (fun k => start + k * step)

/-- Embedding of one comma-separated token of CronParser._parse_field:
a star, a step token, a dash range or a single value. -/
def parse_part (part : List Char) (lo hi : Nat) : Except String (List Nat) :=
  if part = ['*'] then .ok (range_incl lo hi)
  else if part.contains '/' then
    match split_on_char '/' part with
    | [rangePart, stepStr] => do
      let step ← toNatE stepStr
      let bounds ← (if rangePart = ['*'] then pure (lo, hi)
        else if rangePart.contains '-' then
          match split_on_char '-' rangePart with
          | [a, b] => do
            let av ← toNatE a
            let bv ← toNatE b
            pure (av, bv)
          | _ => Except.error "ValueError: could not unpack range"
        else do
          let av ← toNatE rangePart
          pure (av, hi))
      if step = 0 then Except.error "ValueError: range arg 3 must not be zero"
      else pure (range_step bounds.1 (bounds.2 + 1) step)
    | _ => .error "ValueError: too many values to unpack"
  else if part.contains '-' then
    match split_on_char '-' part with
    | [a, b] => do
      let av ← toNatE a
      let bv ← toNatE b
      pure (range_incl av bv)
    | _ => .error "ValueError: could not unpack range"
  else do
    let v ← toNatE part
    pure [v]

/-- Collect the values of every comma-separated token. -/
def parse_parts (lo hi : Nat) : List (List Char) → Except String (List Nat)
  | [] => .ok []
  | p :: rest => do
    let v ← parse_part p lo hi
    let r ← parse_parts lo hi rest
    pure (v ++ r)

/-- Embedding of CronParser._parse_field: union of the token values,
validated against the field range and returned as sorted(set(result)). -/
def parse_field (field : List Char) (lo hi : Nat) : Except String (List Nat) := do
  let collected ← parse_parts lo hi (split_on_char ',' field)
  if collected.all (fun v => lo ≤ v && v ≤ hi) then
    pure ((range_incl lo hi).filter (fun v => collected.contains v))
  else
    Except.error "ValueError: value out of range"

/-- Embedding of CronParser._parse_expr: a 5 field expression, fields in
the order minute, hour, day, month, day_of_week (whitespace splitting
models str.split with no argument). -/
def parse_expr (expr : String) : Except String CronFields :=
  match (split_on_char ' ' expr.data).filter (fun s => !s.isEmpty) with
  | [a, b, c, d, e] => do
    let minute ← parse_field a 0 59
    let hour ← parse_field b 0 23
    let day ← parse_field c 1 31
    let month ← parse_field d 1 12
    let dow ← parse_field e 0 6
    pure ⟨minute, hour, day, month, dow⟩
  | _ => .error "Invalid cron expression. Must have 5 fields"

/-- Embedding of CronParser._get_next_value: first allowed value
satisfying (value greater than current, or rollover), else roll over to
the first allowed value, else ValueError. -/
def get_next_value (current : Nat) (allowed : List Nat) (rollover : Bool) :
    Except String (Nat × Bool) :=
  match allowed.find? (fun v => rollover || decide (current < v)) with
  | some v => .ok (v, false)
  | none =>
    match allowed with
    | [] => .error "No valid values found"
    | a :: _ => .ok (a, true)

/-- First element of a field list (source expression fields[name][0],
raising IndexError on an empty list). -/
def headE : List Nat → Except String Nat
  | [] => .error "IndexError: list index out of range"
  | a :: _ => .ok a

/-- Result of one iteration of the get_next_run while loop: either the
loop continues with an adjusted current value, or it returns. -/
inductive StepRes where
  | next (c : PyDateTime)
  | done (c : PyDateTime)
deriving DecidableEq, Repr

/-- Embedding of one iteration of the while-True loop body of
CronParser.get_next_run, with every datetime.replace call validated. -/
def cron_step (f : CronFields) (cur : PyDateTime) : Except String StepRes :=
  match get_next_value cur.minute f.minute false with
  | .error e => .error e
  | .ok (minute, minuteRollover) =>
    if minuteRollover ∨ cur.minute < minute then
      match mkValid cur.year cur.month cur.day
          (cur.hour + (if minuteRollover then 1 else 0)) minute cur.second with
      | .error e => .error e
      | .ok c => .ok (.next c)
    else
      match get_next_value cur.hour f.hour minuteRollover with
      | .error e => .error e
      | .ok (hour, hourRollover) =>
        if hourRollover ∨ cur.hour < hour then
          match headE f.minute with
          | .error e => .error e
          | .ok m0 =>
            match mkValid cur.year cur.month cur.day hour m0 cur.second with
            | .error e => .error e
            | .ok c =>
              if hourRollover then
                match mkValid c.year c.month (c.day + 1) c.hour c.minute c.second with
                | .error e => .error e
                | .ok c2 => .ok (.next c2)
              else .ok (.next c)
        else
          match headE f.minute, headE f.hour with
          | .error e, _ => .error e
          | _, .error e => .error e
          | .ok m0, .ok h0 =>
            if !(f.day.contains cur.day &&
                 f.dayOfWeek.contains (py_weekday cur.year cur.month cur.day)) then
              match mkValid cur.year cur.month (cur.day + 1) h0 m0 cur.second with
              | .error e => .error e
              | .ok c => .ok (.next c)
            else if !(f.month.contains cur.month) then
              if cur.month == 12 then
                match mkValid (cur.year + 1) 1 1 h0 m0 cur.second with
                | .error e => .error e
                | .ok c => .ok (.next c)
              else
                match mkValid cur.year (cur.month + 1) 1 h0 m0 cur.second with
                | .error e => .error e
                | .ok c => .ok (.next c)
            else .ok (.done cur)

/-- Fuel-indexed iteration of the loop; ok none means the fuel ran out
with the loop still running. -/
def cron_loop (f : CronFields) : Nat → PyDateTime → Except String (Option PyDateTime)
  | 0, _ => .ok none
  | Nat.succ n, cur =>
    match cron_step f cur with
    | .error e => .error e
    | .ok (.next c) => cron_loop f n c
    | .ok (.done c) => .ok (some c)

/-- Embedding of CronParser.get_next_run: truncate the reference instant
to the minute, then iterate the loop body. -/
def get_next_run (f : CronFields) (fuel : Nat) (after : PyDateTime) :
    Except String (Option PyDateTime) :=
  cron_loop f fuel { after with second := 0 }

/-- Parsing plus next-run search: CronParser(expr).get_next_run(after). -/
def cron_next_run (expr : String) (fuel : Nat) (after : PyDateTime) :
    Except String (Option PyDateTime) :=
  match parse_expr expr with
  | .error e => .error e
  | .ok f => get_next_run f fuel after

end CronParser

namespace CronParser

theorem get_next_value_gt (c : Nat) (l : List Nat) (v : Nat) (b : Bool)
    (h : get_next_value c l false = .ok (v, b)) : b = true ∨ c < v := by
  unfold get_next_value at h
  cases hf : l.find? (fun w => false || decide (c < w)) with
  | some w =>
    rw [hf] at h
    cases h
    have hp := List.find?_some hf
    right
    simpa using hp
  | none =>
    rw [hf] at h
    cases l with
    | nil => cases h
    | cons a t => cases h; left; rfl

theorem cron_step_not_done (f : CronFields) (cur dt : PyDateTime) :
    cron_step f cur ≠ .ok (.done dt) := by
  intro h
  unfold cron_step at h
  split at h
  · exact Except.noConfusion h
  · rename_i v b heq
    have hcond : b = true ∨ cur.minute < v := get_next_value_gt _ _ _ _ heq
    rw [if_pos hcond] at h
    split at h
    · exact Except.noConfusion h
    · simp at h

theorem cron_loop_no_result (f : CronFields) :
    ∀ fuel cur dt, cron_loop f fuel cur ≠ .ok (some dt) := by
  intro fuel
  induction fuel with
  | zero => intro cur dt h; simp [cron_loop] at h
  | succ n ih =>
    intro cur dt h
    unfold cron_loop at h
    cases hs : cron_step f cur with
    | error e => rw [hs] at h; cases h
    | ok r =>
      cases r with
      | next c => rw [hs] at h; exact ih c dt h
      | done c => exact cron_step_not_done f cur c hs

/-- The get_next_run search can never return a value: every iteration of
the loop takes the minute-advancing branch (the next allowed value is
computed with a strict comparison), so the code after it is unreachable
and the loop only stops by raising or by exhausting fuel. -/
theorem get_next_run_never_returns (f : CronFields) (fuel : Nat)
    (after dt : PyDateTime) : get_next_run f fuel after ≠ .ok (some dt) :=
  cron_loop_no_result f fuel _ dt

theorem cron_next_run_never_returns (expr : String) (fuel : Nat)
    (after dt : PyDateTime) : cron_next_run expr fuel after ≠ .ok (some dt) := by
  intro h
  unfold cron_next_run at h
  cases hp : parse_expr expr with
  | error e => rw [hp] at h; cases h
  | ok f => rw [hp] at h; exact get_next_run_never_returns f fuel after dt h

end CronParser

/-- C1: the claim says CronParser.get_next_run on the expression
star-slash-15 star star star star with reference 14:07 returns 14:15.
In fact the loop walks through every allowed minute (the minute branch
always advances because _get_next_value uses a strict comparison) until
the hour rollover calls replace with hour 24, which raises ValueError;
get_next_run never returns at all. -/
theorem c1_cron_next_run_raises_at_1407 :
    CronParser.cron_next_run "*/15 * * * *" 64 ⟨2025, 1, 1, 14, 7, 0⟩ =
      .error "ValueError: hour must be in 0..23" := by
  rfl

/-- Time units of schemas.TimeUnit. -/
inductive TimeUnit where
  | seconds | minutes | hours | days | weeks | months | years
deriving DecidableEq, Repr

/-- Execution states of schemas.Status. -/
inductive Status where
  | pending | running | completed | failed
deriving DecidableEq, Repr, BEq

/-- Row identity: an autoincrement integer for ordinarily created jobs,
or a string key (the default-job hash) when one is supplied. -/
inductive JobId where
  | auto (n : Nat)
  | hashed (s : String)
deriving DecidableEq, Repr

/-- Embedding of the persisted Job row (models.Job / the job object that
core.Homeworq manipulates).  Parameter values are modelled as a
string-to-string mapping, which is all the scheduler core inspects. -/
structure Job where
  id : JobId
  taskName : String
  params : List (String × String)
  scheduleInterval : Option Nat
  scheduleUnit : Option TimeUnit
  scheduleAt : Option String
  scheduleCron : Option String
  timeout : Option Nat
  maxRetries : Option Nat
  startDate : Option PyDateTime
  endDate : Option PyDateTime
  lastRun : Option PyDateTime
  nextRun : Option PyDateTime
deriving DecidableEq, Repr

/-- Embedding of one execution record (core JobExecution / models.Log),
generic in the type of task results. -/
structure JobExecution (ρ : Type) where
  status : Status
  startedAt : PyDateTime
  completedAt : Option PyDateTime
  duration : Option Int
  result : Option ρ
  error : Option String
  retries : Nat
deriving DecidableEq, Repr

/-- Parsing of the schedule_at string, source expression
map(int, job.schedule_at.split(colon)). -/
def parse_hhmm (s : String) : Except String (Nat × Nat) :=
  match CronParser.split_on_char ':' s.data with
  | [hs, ms] =>
    match CronParser.digits_to_nat hs, CronParser.digits_to_nat ms with
    | some h, some m => .ok (h, m)
    | _, _ => .error "ValueError: invalid literal for int"
  | _ => .error "ValueError: could not unpack hour and minute"

namespace Homeworq

/-- Embedding of Homeworq._calculate_next_run.  The reference instant is
passed explicitly (the source reads datetime.now() itself; the clock
selection is modelled separately through TimeEnv).  The timedelta call
with a months or years keyword raises TypeError, since Python timedelta
has no such keywords. -/
def calculate_next_run (job : Job) (now : PyDateTime) : Except String PyDateTime :=
  match job.scheduleCron with
  | some _ => .error "NotImplementedError: Cron scheduling not implemented"
  | none =>
    match job.scheduleAt with
    | some s =>
      match parse_hhmm s with
      | .error e => .error e
      | .ok (h, mi) =>
        match mkValid now.year now.month now.day h mi 0 with
        | .error e => .error e
        | .ok nextRun =>
          if nextRun ≤ now then
            if job.scheduleUnit = some TimeUnit.days then
              match job.scheduleInterval with
              | some i => .ok (add_days i nextRun)
              | none => .error "TypeError: unsupported type for timedelta days component"
            else if job.scheduleUnit = some TimeUnit.weeks then
              match job.scheduleInterval with
              | some i => .ok (add_days (7 * i) nextRun)
              | none => .error "TypeError: unsupported type for timedelta days component"
            else .error "ValueError: Time-of-day scheduling only for daily/weekly jobs"
          else .ok nextRun
    | none =>
      match job.scheduleUnit with
      | none => .error "AttributeError: NoneType object has no attribute value"
      | some TimeUnit.months =>
        .error "TypeError: months is an invalid keyword argument for timedelta"
      | some TimeUnit.years =>
        .error "TypeError: years is an invalid keyword argument for timedelta"
      | some u =>
        match job.scheduleInterval with
        | none => .error "TypeError: unsupported type for timedelta component"
        | some i =>
          match u with
          | TimeUnit.seconds => .ok (add_seconds i now)
          | TimeUnit.minutes => .ok (add_seconds (60 * i) now)
          | TimeUnit.hours => .ok (add_seconds (3600 * i) now)
          | TimeUnit.days => .ok (add_days i now)
          | TimeUnit.weeks => .ok (add_days (7 * i) now)
          | _ => .error "TypeError: unreachable unit"

/-- Truthy start-date guard of _can_run_job: blocked when a start date
is set and now is before it. -/
def start_blocked (job : Job) (now : PyDateTime) : Bool :=
  match job.startDate with
  | some sd => decide (now < sd)
  | none => false

/-- Truthy end-date guard of _can_run_job: blocked when an end date is
set and now is after it. -/
def end_blocked (job : Job) (now : PyDateTime) : Bool :=
  match job.endDate with
  | some ed => decide (ed < now)
  | none => false

/-- Embedding of Homeworq._can_run_job.  The query for the most recent
execution is used only for existence, so the execution list stands in
for the filtered query result.  When a prior execution exists the next
run is freshly recomputed and compared with now. -/
def can_run_job {ρ : Type} (job : Job) (executions : List (JobExecution ρ))
    (now : PyDateTime) : Except String Bool :=
  if start_blocked job now then .ok false
  else if end_blocked job now then .ok false
  else if executions.isEmpty then .ok true
  else
    match calculate_next_run job now with
    | .error e => .error e
    | .ok nr => .ok (decide (nr ≤ now))

/-- Eligibility predicate transcribed from the words of claim C3 (the
specification version of can_run, to be compared with the source
function): start_date le now or unset, end_date strictly after now or
unset, no RUNNING log, and stored next_run le now or (next_run null and
no prior log). -/
def spec_can_run {ρ : Type} (job : Job) (logs : List (JobExecution ρ))
    (now : PyDateTime) : Bool :=
  (match job.startDate with | none => true | some sd => decide (sd ≤ now)) &&
  (match job.endDate with | none => true | some ed => decide (now < ed)) &&
  !(logs.any (fun l => l.status == Status.running)) &&
  ((match job.nextRun with | some nr => decide (nr ≤ now) | none => false) ||
   (job.nextRun.isNone && logs.isEmpty))

end Homeworq

/-- Environment of clock readings: datetime.now(timezone.utc) yields
utcNow, the naive datetime.now() yields localNow. -/
structure TimeEnv where
  utcNow : PyDateTime
  localNow : PyDateTime
deriving DecidableEq, Repr

namespace Homeworq

/-- Clock selection of _calculate_next_run: source line 194 reads the
naive local clock datetime.now(), not the UTC clock. -/
def calculate_next_run_env (job : Job) (env : TimeEnv) : Except String PyDateTime :=
  calculate_next_run job env.localNow

/-- Clock selection of _can_run_job: source line 234 reads the naive
local clock datetime.now(), not the UTC clock. -/
def can_run_job_env {ρ : Type} (job : Job) (executions : List (JobExecution ρ))
    (env : TimeEnv) : Except String Bool :=
  can_run_job job executions env.localNow

end Homeworq

theorem PyDateTime.not_lt {a b : PyDateTime} : ¬ a < b ↔ b ≤ a := Nat.not_lt

theorem PyDateTime.not_le {a b : PyDateTime} : ¬ a ≤ b ↔ b < a := Nat.not_le

/-- A job whose interval schedule carries an at-time but a unit that is
neither days nor weeks (claim C7 says this must always fail). -/
def job_at_minutes : Job :=
  { id := .auto 1, taskName := "t", params := [],
    scheduleInterval := some 1, scheduleUnit := some TimeUnit.minutes,
    scheduleAt := some "23:59", scheduleCron := none,
    timeout := none, maxRetries := none,
    startDate := none, endDate := none, lastRun := none, nextRun := none }

/-- C7 counterexample: for an at-schedule with unit minutes evaluated at
midnight, _calculate_next_run does NOT fail; it returns today at 23:59,
because the unit check is only reached when the at-instant is le now. -/
theorem c7_counterexample_at_unit_minutes_succeeds :
    Homeworq.calculate_next_run job_at_minutes ⟨2025, 1, 1, 0, 0, 0⟩ =
      .ok ⟨2025, 1, 1, 23, 59, 0⟩ := by
  rfl

/-- C7 as amended: with an at-time set, the at-instant for today is
returned whenever it lies strictly after now, for every unit; only when
it is le now does the unit decide: days and weeks advance by the
interval, every other unit raises the invalid-schedule ValueError. -/
theorem c7_calculate_next_run_at_spec (job : Job) (now todayAt : PyDateTime)
    (s : String) (h mi i : Nat)
    (hc : job.scheduleCron = none)
    (ha : job.scheduleAt = some s)
    (hp : parse_hhmm s = .ok (h, mi))
    (hm : mkValid now.year now.month now.day h mi 0 = .ok todayAt)
    (hi : job.scheduleInterval = some i) :
    (now < todayAt → Homeworq.calculate_next_run job now = .ok todayAt)
    ∧ (todayAt ≤ now → job.scheduleUnit = some TimeUnit.days →
        Homeworq.calculate_next_run job now = .ok (add_days i todayAt))
    ∧ (todayAt ≤ now → job.scheduleUnit = some TimeUnit.weeks →
        Homeworq.calculate_next_run job now = .ok (add_days (7 * i) todayAt))
    ∧ (todayAt ≤ now → job.scheduleUnit ≠ some TimeUnit.days →
        job.scheduleUnit ≠ some TimeUnit.weeks →
        Homeworq.calculate_next_run job now =
          .error "ValueError: Time-of-day scheduling only for daily/weekly jobs") := by
  refine ⟨?_, ?_, ?_, ?_⟩
  · intro hlt
    have hnle : ¬ todayAt ≤ now := PyDateTime.not_le.mpr hlt
    simp [Homeworq.calculate_next_run, hc, ha, hp, hm, hnle]
  · intro hle hu
    simp [Homeworq.calculate_next_run, hc, ha, hp, hm, hle, hu, hi]
  · intro hle hu
    simp [Homeworq.calculate_next_run, hc, ha, hp, hm, hle, hu, hi]
  · intro hle hu1 hu2
    simp [Homeworq.calculate_next_run, hc, ha, hp, hm, hle, hu1, hu2]

/-- The daily-at-02:00 job of the scenario in the claim. -/
def job_daily_0200 : Job :=
  { id := .auto 1, taskName := "t", params := [],
    scheduleInterval := some 1, scheduleUnit := some TimeUnit.days,
    scheduleAt := some "02:00", scheduleCron := none,
    timeout := none, maxRetries := none,
    startDate := none, endDate := none, lastRun := none, nextRun := none }

/-- Witness for C7: the daily job at 02:00 evaluated at
2025-01-01T03:00 yields 2025-01-02T02:00. -/
theorem c7_calculate_next_run_at_spec_witness :
    Homeworq.calculate_next_run job_daily_0200 ⟨2025, 1, 1, 3, 0, 0⟩ =
      .ok ⟨2025, 1, 2, 2, 0, 0⟩ := by
  have h := c7_calculate_next_run_at_spec job_daily_0200 ⟨2025, 1, 1, 3, 0, 0⟩
    ⟨2025, 1, 1, 2, 0, 0⟩ "02:00" 2 0 1 rfl rfl rfl rfl rfl
  exact h.2.1 (by decide) rfl

/-- A months-unit interval job without an at-time. -/
def job_months : Job :=
  { id := .auto 1, taskName := "t", params := [],
    scheduleInterval := some 1, scheduleUnit := some TimeUnit.months,
    scheduleAt := none, scheduleCron := none,
    timeout := none, maxRetries := none,
    startDate := none, endDate := none, lastRun := none, nextRun := none }

/-- A years-unit interval job without an at-time. -/
def job_years : Job :=
  { job_months with scheduleUnit := some TimeUnit.years }

/-- C8: the claim says months and years units succeed with
calendar-aware offsets.  The code instead builds
timedelta(months = interval) respectively timedelta(years = interval),
keywords that timedelta does not accept, so both raise TypeError. -/
theorem c8_months_years_raise_type_error :
    Homeworq.calculate_next_run job_months ⟨2025, 1, 15, 10, 0, 0⟩ =
      .error "TypeError: months is an invalid keyword argument for timedelta"
    ∧ Homeworq.calculate_next_run job_years ⟨2025, 1, 15, 10, 0, 0⟩ =
      .error "TypeError: years is an invalid keyword argument for timedelta" :=
  ⟨rfl, rfl⟩

/-- Supporting generalisation of C8: every cron-free, at-free job whose
unit is months or years makes _calculate_next_run raise, at every
reference instant. -/
theorem calculate_next_run_months_years_always_raise (job : Job) (now : PyDateTime)
    (hc : job.scheduleCron = none) (ha : job.scheduleAt = none) :
    (job.scheduleUnit = some TimeUnit.months →
      Homeworq.calculate_next_run job now =
        .error "TypeError: months is an invalid keyword argument for timedelta")
    ∧ (job.scheduleUnit = some TimeUnit.years →
      Homeworq.calculate_next_run job now =
        .error "TypeError: years is an invalid keyword argument for timedelta") := by
  constructor
  · intro hu
    simp [Homeworq.calculate_next_run, hc, ha, hu]
  · intro hu
    simp [Homeworq.calculate_next_run, hc, ha, hu]

/-- A job whose stored next_run lies in the future and that has never
executed. -/
def job_future_next : Job :=
  { id := .auto 1, taskName := "t", params := [],
    scheduleInterval := some 1, scheduleUnit := some TimeUnit.minutes,
    scheduleAt := none, scheduleCron := none,
    timeout := none, maxRetries := none,
    startDate := none, endDate := none, lastRun := none,
    nextRun := some ⟨2025, 1, 1, 15, 0, 0⟩ }

/-- C3 counterexample: for a job with no prior execution and a stored
next_run one hour in the future, the code returns true (it never reads
the stored next_run) while the claimed predicate returns false. -/
theorem c3_counterexample_stored_next_run_ignored :
    Homeworq.can_run_job job_future_next ([] : List (JobExecution Nat))
      ⟨2025, 1, 1, 14, 0, 0⟩ = .ok true
    ∧ Homeworq.spec_can_run job_future_next ([] : List (JobExecution Nat))
      ⟨2025, 1, 1, 14, 0, 0⟩ = false :=
  ⟨rfl, rfl⟩

/-- C3 as amended: _can_run_job answers true exactly when now is not
before the start date, not after the end date, and either no prior
execution exists at all (the stored next_run is never consulted and
there is no RUNNING-log check) or the freshly recomputed next run is
le now. -/
theorem c3_can_run_job_characterisation {ρ : Type} (job : Job)
    (executions : List (JobExecution ρ)) (now : PyDateTime) :
    Homeworq.can_run_job job executions now = .ok true ↔
      ((∀ sd ∈ job.startDate, sd ≤ now) ∧ (∀ ed ∈ job.endDate, now ≤ ed) ∧
        (executions = [] ∨
          ∃ nr, Homeworq.calculate_next_run job now = .ok nr ∧ nr ≤ now)) := by
  have hs : Homeworq.start_blocked job now = false ↔ (∀ sd ∈ job.startDate, sd ≤ now) := by
    cases h : job.startDate with
    | none => simp [Homeworq.start_blocked, h]
    | some sd => simp [Homeworq.start_blocked, h, PyDateTime.not_lt]
  have he : Homeworq.end_blocked job now = false ↔ (∀ ed ∈ job.endDate, now ≤ ed) := by
    cases h : job.endDate with
    | none => simp [Homeworq.end_blocked, h]
    | some ed => simp [Homeworq.end_blocked, h, PyDateTime.not_lt]
  unfold Homeworq.can_run_job
  by_cases h1 : Homeworq.start_blocked job now
  · simp only [h1, if_true]
    simp only [Bool.not_eq_false] at hs
    constructor
    · intro h; exact absurd h (by simp)
    · rintro ⟨a, -, -⟩
      exact absurd (hs.mpr a) (by simp [h1])
  · rw [if_neg (by simpa using h1)]
    have ha : ∀ sd ∈ job.startDate, sd ≤ now := hs.mp (by simpa using h1)
    by_cases h2 : Homeworq.end_blocked job now
    · simp only [h2, if_true]
      constructor
      · intro h; exact absurd h (by simp)
      · rintro ⟨-, b, -⟩
        exact absurd (he.mpr b) (by simp [h2])
    · rw [if_neg (by simpa using h2)]
      have hb : ∀ ed ∈ job.endDate, now ≤ ed := he.mp (by simpa using h2)
      cases hex : executions with
      | nil =>
        simp only [List.isEmpty_nil, if_true]
        exact iff_of_true trivial
          ⟨fun sd hsd => ha sd hsd, fun ed hed => hb ed hed, Or.inl trivial⟩
      | cons x xs =>
        simp only [List.isEmpty_cons, Bool.false_eq_true, if_false]
        cases hcr : Homeworq.calculate_next_run job now with
        | error e =>
          simp [ha, hb]
        | ok nr =>
          simp only [Except.ok.injEq, decide_eq_true_eq]
          constructor
          · intro hle
            exact ⟨ha, hb, Or.inr ⟨nr, rfl, hle⟩⟩
          · rintro ⟨-, -, hor⟩
            rcases hor with hnil | ⟨nr2, hnr2, hle2⟩
            · cases hnil
            · cases hnr2
              exact hle2

/-- A job that has not started yet relative to UTC but has started
relative to a local clock one hour ahead. -/
def job_start_1430 : Job :=
  { id := .auto 1, taskName := "t", params := [],
    scheduleInterval := some 1, scheduleUnit := some TimeUnit.minutes,
    scheduleAt := none, scheduleCron := none,
    timeout := none, maxRetries := none,
    startDate := some ⟨2025, 1, 1, 14, 30, 0⟩, endDate := none,
    lastRun := none, nextRun := none }

/-- A clock environment whose naive local clock runs one hour ahead of
UTC. -/
def env_skew : TimeEnv :=
  { utcNow := ⟨2025, 1, 1, 14, 0, 0⟩, localNow := ⟨2025, 1, 1, 15, 0, 0⟩ }

/-- C9 counterexample: _can_run_job reads the naive local clock, so with
a local clock one hour ahead of UTC it declares a job runnable that the
UTC reference instant would reject; its reference instant is therefore
not the UTC clock. -/
theorem c9_counterexample_can_run_uses_local_clock :
    Homeworq.can_run_job_env job_start_1430 ([] : List (JobExecution Nat)) env_skew =
      .ok true
    ∧ Homeworq.can_run_job job_start_1430 ([] : List (JobExecution Nat))
      env_skew.utcNow = .ok false :=
  ⟨rfl, rfl⟩

/-- Outcome of one task invocation attempt inside _execute_job: the
awaited task either returns a value, raises, or exceeds the timeout. -/
inductive Outcome (ρ : Type) where
  | success (r : ρ)
  | failure (msg : String)
  | timeout
deriving DecidableEq, Repr

/-- Whether an attempt outcome is a successful return. -/
def Outcome.isSuccess {ρ : Type} : Outcome ρ → Bool
  | .success _ => true
  | _ => false

/-- The message _execute_job remembers for a non-success outcome:
the fixed timeout message for asyncio.TimeoutError, str(e) otherwise. -/
def Outcome.msg {ρ : Type} : Outcome ρ → String
  | .success _ => ""
  | .timeout => "Job execution timed out"
  | .failure m => m

/-- Backoff sleep before the attempt with retry counter rc, source line
161: min(300, (2 ** retry_count) + random.uniform(0, 1)), the uniform
draw modelled by a per-retry-count jitter value. -/
def backoff_delay (jitter : Nat → ℚ) (rc : Nat) : ℚ :=
  min 300 ((2 : ℚ) ^ rc + jitter rc)

/-- The list of backoff sleeps for retry counters s, s+1, ..., s+n-1. -/
def delay_list (jitter : Nat → ℚ) : Nat → Nat → List ℚ
  | _, 0 => []
  | s, n + 1 => backoff_delay jitter s :: delay_list jitter (s + 1) n

/-- Result of the while loop of _execute_job: the successful value and
the retry counter at the break (if any), the remembered last error, the
number of task invocations made, and the backoff sleeps performed. -/
structure AttemptsResult (ρ : Type) where
  succeeded : Option (ρ × Nat)
  lastError : Option String
  attempts : Nat
  sleeps : List ℚ
deriving Repr

/-- Embedding of the retry while loop of _execute_job (source lines
123-162).  The loop guard retry_count le max_retries is checked first;
a successful attempt breaks; a failed attempt remembers its message,
increments the counter and sleeps the backoff delay when another
attempt remains.  The budget argument only bounds the recursion and is
chosen large enough by the caller that it never cuts the loop short. -/
def run_attempts {ρ : Type} (outcomes : Nat → Outcome ρ) (jitter : Nat → ℚ)
    (maxRetries : Nat) : Nat → Nat → Option String → AttemptsResult ρ
  | 0, _, lastErr => ⟨none, lastErr, 0, []⟩
  | b + 1, rc, lastErr =>
    if rc ≤ maxRetries then
      match outcomes rc with
      | .success r => ⟨some (r, rc), lastErr, 1, []⟩
      | .timeout =>
        let rest := run_attempts outcomes jitter maxRetries b (rc + 1)
          (some "Job execution timed out")
        ⟨rest.succeeded, rest.lastError, rest.attempts + 1,
          (if rc + 1 ≤ maxRetries then [backoff_delay jitter (rc + 1)] else [])
            ++ rest.sleeps⟩
      | .failure m =>
        let rest := run_attempts outcomes jitter maxRetries b (rc + 1) (some m)
        ⟨rest.succeeded, rest.lastError, rest.attempts + 1,
          (if rc + 1 ≤ maxRetries then [backoff_delay jitter (rc + 1)] else [])
            ++ rest.sleeps⟩
    else ⟨none, lastErr, 0, []⟩

/-- Everything observable about one call of _execute_job: the finalised
execution record, the job object as the function leaves it, the number
of attempts made and the backoff sleeps performed. -/
structure ExecOutput (ρ : Type) where
  exec : JobExecution ρ
  job : Job
  attempts : Nat
  sleeps : List ℚ

namespace Homeworq

/-- Embedding of Homeworq._execute_job.  The two clock readings (start,
lines 111-117, and completion, line 168) are explicit arguments; the
task invocations are the outcomes function.  max_retries or 0 maps a
null max_retries to 0.  The function is total: task failures are
consumed, never propagated. -/
def execute_job {ρ : Type} (job : Job) (startedAt completedAt : PyDateTime)
    (outcomes : Nat → Outcome ρ) (jitter : Nat → ℚ) : ExecOutput ρ :=
  let maxRetries := job.maxRetries.getD 0
  let r := run_attempts outcomes jitter maxRetries (maxRetries + 2) 0 none
  let exec0 : JobExecution ρ :=
    { status := .running, startedAt := startedAt, completedAt := none,
      duration := none, result := none, error := none, retries := 0 }
  let exec1 :=
    match r.succeeded with
    | some (res, rc) =>
      { exec0 with status := .completed, result := some res, retries := rc }
    | none => exec0
  let exec2 :=
    if exec1.status ≠ Status.completed then
      { exec1 with status := .failed, error := r.lastError }
    else exec1
  { exec :=
      { exec2 with
        completedAt := some completedAt,
        duration := some ((completedAt.to_serial : Int) - (startedAt.to_serial : Int)) },
    job := job, attempts := r.attempts, sleeps := r.sleeps }

/-- Clock selection of _execute_job: both the start instant (line 111)
and the completion instant (line 168) are read from
datetime.now(timezone.utc), the UTC clock. -/
def execute_job_env {ρ : Type} (job : Job) (envStart envEnd : TimeEnv)
    (outcomes : Nat → Outcome ρ) (jitter : Nat → ℚ) : ExecOutput ρ :=
  execute_job job envStart.utcNow envEnd.utcNow outcomes jitter

end Homeworq

theorem run_attempts_attempts_le {ρ : Type} (outcomes : Nat → Outcome ρ)
    (jitter : Nat → ℚ) (maxRetries : Nat) :
    ∀ b rc lastErr,
      (run_attempts outcomes jitter maxRetries b rc lastErr).attempts ≤
        maxRetries + 1 - rc := by
  intro b
  induction b with
  | zero => intro rc lastErr; simp [run_attempts]
  | succ n ih =>
    intro rc lastErr
    unfold run_attempts
    by_cases hrc : rc ≤ maxRetries
    · rw [if_pos hrc]
      cases ho : outcomes rc with
      | success r => simp; omega
      | timeout =>
        simp only
        have := ih (rc + 1) (some "Job execution timed out")
        omega
      | failure m =>
        simp only
        have := ih (rc + 1) (some m)
        omega
    · rw [if_neg hrc]
      simp

theorem run_attempts_first_success {ρ : Type} (outcomes : Nat → Outcome ρ)
    (jitter : Nat → ℚ) (maxRetries k : Nat) (res : ρ)
    (hk : k ≤ maxRetries)
    (hs : outcomes k = .success res)
    (hf : ∀ i, i < k → (outcomes i).isSuccess = false) :
    ∀ b rc lastErr, rc ≤ k → b + rc = maxRetries + 2 →
      (run_attempts outcomes jitter maxRetries b rc lastErr).succeeded = some (res, k)
      ∧ (run_attempts outcomes jitter maxRetries b rc lastErr).attempts = k + 1 - rc
      ∧ (run_attempts outcomes jitter maxRetries b rc lastErr).sleeps =
          delay_list jitter (rc + 1) (k - rc) := by
  intro b
  induction b with
  | zero => intro rc lastErr h1 h2; omega
  | succ n ih =>
    intro rc lastErr h1 h2
    unfold run_attempts
    rw [if_pos (by omega)]
    rcases Nat.eq_or_lt_of_le h1 with heq | hlt
    · subst heq
      rw [hs]
      refine ⟨rfl, ?_, ?_⟩
      · show 1 = rc + 1 - rc
        omega
      · show ([] : List ℚ) = delay_list jitter (rc + 1) (rc - rc)
        have hz : rc - rc = 0 := by omega
        rw [hz]
        rfl
    · cases ho : outcomes rc with
      | success r =>
        have := hf rc hlt
        rw [ho] at this
        simp [Outcome.isSuccess] at this
      | timeout =>
        obtain ⟨ha, hb, hc⟩ := ih (rc + 1) (some "Job execution timed out")
          (by omega) (by omega)
        refine ⟨ha, ?_, ?_⟩
        · show (run_attempts outcomes jitter maxRetries n (rc + 1)
              (some "Job execution timed out")).attempts + 1 = k + 1 - rc
          rw [hb]
          omega
        · show (if rc + 1 ≤ maxRetries then [backoff_delay jitter (rc + 1)] else [])
              ++ (run_attempts outcomes jitter maxRetries n (rc + 1)
                (some "Job execution timed out")).sleeps =
              delay_list jitter (rc + 1) (k - rc)
          rw [if_pos (show rc + 1 ≤ maxRetries by omega), hc,
            show k - rc = (k - (rc + 1)) + 1 by omega]
          simp [delay_list]
      | failure m =>
        obtain ⟨ha, hb, hc⟩ := ih (rc + 1) (some m) (by omega) (by omega)
        refine ⟨ha, ?_, ?_⟩
        · show (run_attempts outcomes jitter maxRetries n (rc + 1)
              (some m)).attempts + 1 = k + 1 - rc
          rw [hb]
          omega
        · show (if rc + 1 ≤ maxRetries then [backoff_delay jitter (rc + 1)] else [])
              ++ (run_attempts outcomes jitter maxRetries n (rc + 1)
                (some m)).sleeps =
              delay_list jitter (rc + 1) (k - rc)
          rw [if_pos (show rc + 1 ≤ maxRetries by omega), hc,
            show k - rc = (k - (rc + 1)) + 1 by omega]
          simp [delay_list]

theorem run_attempts_all_fail {ρ : Type} (outcomes : Nat → Outcome ρ)
    (jitter : Nat → ℚ) (maxRetries : Nat)
    (hf : ∀ i, (outcomes i).isSuccess = false) :
    ∀ b rc lastErr, rc ≤ maxRetries → b + rc = maxRetries + 2 →
      (run_attempts outcomes jitter maxRetries b rc lastErr).succeeded = none
      ∧ (run_attempts outcomes jitter maxRetries b rc lastErr).lastError =
          some (Outcome.msg (outcomes maxRetries))
      ∧ (run_attempts outcomes jitter maxRetries b rc lastErr).attempts =
          maxRetries + 1 - rc := by
  intro b
  induction b with
  | zero => intro rc lastErr h1 h2; omega
  | succ n ih =>
    intro rc lastErr h1 h2
    unfold run_attempts
    rw [if_pos h1]
    rcases Nat.eq_or_lt_of_le h1 with heq | hlt
    · subst heq
      have hn : n = 1 := by omega
      subst hn
      cases ho : outcomes rc with
      | success r =>
        have := hf rc
        rw [ho] at this
        simp [Outcome.isSuccess] at this
      | timeout =>
        have hrest : run_attempts outcomes jitter rc 1 (rc + 1)
            (some "Job execution timed out") =
            ⟨none, some "Job execution timed out", 0, []⟩ := by
          unfold run_attempts
          rw [if_neg (by omega)]
        refine ⟨?_, ?_, ?_⟩
        · show (run_attempts outcomes jitter rc 1 (rc + 1)
              (some "Job execution timed out")).succeeded = none
          rw [hrest]
        · show (run_attempts outcomes jitter rc 1 (rc + 1)
              (some "Job execution timed out")).lastError =
              some (Outcome.msg Outcome.timeout)
          rw [hrest]
          rfl
        · show (run_attempts outcomes jitter rc 1 (rc + 1)
              (some "Job execution timed out")).attempts + 1 = rc + 1 - rc
          rw [hrest]
          show 0 + 1 = rc + 1 - rc
          omega
      | failure m =>
        have hrest : run_attempts outcomes jitter rc 1 (rc + 1) (some m) =
            ⟨none, some m, 0, []⟩ := by
          unfold run_attempts
          rw [if_neg (by omega)]
        refine ⟨?_, ?_, ?_⟩
        · show (run_attempts outcomes jitter rc 1 (rc + 1)
              (some m)).succeeded = none
          rw [hrest]
        · show (run_attempts outcomes jitter rc 1 (rc + 1)
              (some m)).lastError = some (Outcome.msg (Outcome.failure m))
          rw [hrest]
          rfl
        · show (run_attempts outcomes jitter rc 1 (rc + 1)
              (some m)).attempts + 1 = rc + 1 - rc
          rw [hrest]
          show 0 + 1 = rc + 1 - rc
          omega
    · cases ho : outcomes rc with
      | success r =>
        have := hf rc
        rw [ho] at this
        simp [Outcome.isSuccess] at this
      | timeout =>
        obtain ⟨ha, hb, hc⟩ := ih (rc + 1) (some "Job execution timed out")
          (by omega) (by omega)
        refine ⟨ha, hb, ?_⟩
        show (run_attempts outcomes jitter maxRetries n (rc + 1)
            (some "Job execution timed out")).attempts + 1 = maxRetries + 1 - rc
        rw [hc]
        omega
      | failure m =>
        obtain ⟨ha, hb, hc⟩ := ih (rc + 1) (some m) (by omega) (by omega)
        refine ⟨ha, hb, ?_⟩
        show (run_attempts outcomes jitter maxRetries n (rc + 1)
            (some m)).attempts + 1 = maxRetries + 1 - rc
        rw [hc]
        omega

theorem delay_list_eq_map (jitter : Nat → ℚ) :
    ∀ n s, delay_list jitter s n =
      (List.range n).map (fun i => backoff_delay jitter (s + i)) := by
  intro n
  induction n with
  | zero => intro s; rfl
  | succ m ih =>
    intro s
    have hstep : delay_list jitter s (m + 1) =
        backoff_delay jitter s :: delay_list jitter (s + 1) m := rfl
    rw [hstep, ih (s + 1), List.range_succ_eq_map]
    simp only [List.map_cons, Nat.add_zero, List.map_map]
    have hfun : (fun i => backoff_delay jitter (s + 1 + i)) =
        ((fun i => backoff_delay jitter (s + i)) ∘ Nat.succ) := by
      funext i
      simp only [Function.comp_apply]
      congr 1
      omega
    rw [hfun]

theorem delay_list_one (jitter : Nat → ℚ) (n : Nat) :
    delay_list jitter 1 n = (List.range n).map (fun i => backoff_delay jitter (i + 1)) := by
  rw [delay_list_eq_map]
  congr 1
  funext i
  congr 1
  omega

/-- C4: when the attempts 0..k-1 fail and attempt k succeeds with k
within the retry budget, _execute_job makes exactly k+1 task
invocations (and never more than max_retries+1), finalises the record
as COMPLETED with the returned value and retries = k, and sleeps
min(300, 2 to the power (i+1) plus jitter) between attempts i and i+1. -/
theorem c4_execute_job_success_spec {ρ : Type} (job : Job)
    (startedAt completedAt : PyDateTime) (outcomes : Nat → Outcome ρ)
    (jitter : Nat → ℚ) (k : Nat) (res : ρ)
    (hf : ∀ i, i < k → (outcomes i).isSuccess = false)
    (hs : outcomes k = .success res)
    (hk : k ≤ job.maxRetries.getD 0) :
    (Homeworq.execute_job job startedAt completedAt outcomes jitter).attempts = k + 1
    ∧ (Homeworq.execute_job job startedAt completedAt outcomes jitter).attempts ≤
        job.maxRetries.getD 0 + 1
    ∧ (Homeworq.execute_job job startedAt completedAt outcomes jitter).exec.status =
        Status.completed
    ∧ (Homeworq.execute_job job startedAt completedAt outcomes jitter).exec.result =
        some res
    ∧ (Homeworq.execute_job job startedAt completedAt outcomes jitter).exec.retries = k
    ∧ (Homeworq.execute_job job startedAt completedAt outcomes jitter).sleeps =
        (List.range k).map (fun i => backoff_delay jitter (i + 1))
    ∧ (∀ outcomes2 : Nat → Outcome ρ,
        (Homeworq.execute_job job startedAt completedAt outcomes2 jitter).attempts ≤
          job.maxRetries.getD 0 + 1) := by
  obtain ⟨h1, h2, h3⟩ := run_attempts_first_success outcomes jitter
    (job.maxRetries.getD 0) k res hk hs hf (job.maxRetries.getD 0 + 2) 0 none
    (Nat.zero_le k) (by omega)
  refine ⟨?_, ?_, ?_, ?_, ?_, ?_, ?_⟩
  · simp [Homeworq.execute_job, h2]
  · simp [Homeworq.execute_job, h2]
    omega
  · simp [Homeworq.execute_job, h1]
  · simp [Homeworq.execute_job, h1]
  · simp [Homeworq.execute_job, h1]
  · simp [Homeworq.execute_job, h3, delay_list_one]
  · intro outcomes2
    show (run_attempts outcomes2 jitter (job.maxRetries.getD 0)
        (job.maxRetries.getD 0 + 2) 0 none).attempts ≤ job.maxRetries.getD 0 + 1
    have := run_attempts_attempts_le outcomes2 jitter (job.maxRetries.getD 0)
      (job.maxRetries.getD 0 + 2) 0 none
    omega

/-- The job used in the executor witnesses: three retries allowed. -/
def job_retry3 : Job :=
  { id := .auto 1, taskName := "t", params := [],
    scheduleInterval := some 1, scheduleUnit := some TimeUnit.hours,
    scheduleAt := none, scheduleCron := none,
    timeout := some 30, maxRetries := some 3,
    startDate := none, endDate := none, lastRun := none, nextRun := none }

/-- Attempt outcomes failing once and then succeeding with value 7. -/
def outcomes_one_fail : Nat → Outcome Nat :=
  fun i => if i = 0 then Outcome.failure "boom" else Outcome.success 7

/-- Witness for C4 at a concrete run: one failure then success. -/
theorem c4_execute_job_success_spec_witness :
    (Homeworq.execute_job job_retry3 ⟨2025, 1, 1, 12, 0, 0⟩ ⟨2025, 1, 1, 12, 0, 5⟩
        outcomes_one_fail (fun _ => 0)).attempts = 2
    ∧ (Homeworq.execute_job job_retry3 ⟨2025, 1, 1, 12, 0, 0⟩ ⟨2025, 1, 1, 12, 0, 5⟩
        outcomes_one_fail (fun _ => 0)).attempts ≤ 4
    ∧ (Homeworq.execute_job job_retry3 ⟨2025, 1, 1, 12, 0, 0⟩ ⟨2025, 1, 1, 12, 0, 5⟩
        outcomes_one_fail (fun _ => 0)).exec.status = Status.completed
    ∧ (Homeworq.execute_job job_retry3 ⟨2025, 1, 1, 12, 0, 0⟩ ⟨2025, 1, 1, 12, 0, 5⟩
        outcomes_one_fail (fun _ => 0)).exec.result = some 7
    ∧ (Homeworq.execute_job job_retry3 ⟨2025, 1, 1, 12, 0, 0⟩ ⟨2025, 1, 1, 12, 0, 5⟩
        outcomes_one_fail (fun _ => 0)).exec.retries = 1
    ∧ (Homeworq.execute_job job_retry3 ⟨2025, 1, 1, 12, 0, 0⟩ ⟨2025, 1, 1, 12, 0, 5⟩
        outcomes_one_fail (fun _ => 0)).sleeps =
        (List.range 1).map (fun i => backoff_delay (fun _ => 0) (i + 1)) := by
  have h := c4_execute_job_success_spec job_retry3 ⟨2025, 1, 1, 12, 0, 0⟩
    ⟨2025, 1, 1, 12, 0, 5⟩ outcomes_one_fail (fun _ => 0) 1 7
    (fun i hi => by
      have hz : i = 0 := by omega
      subst hz
      rfl)
    rfl (by decide)
  exact ⟨h.1, h.2.1, h.2.2.1, h.2.2.2.1, h.2.2.2.2.1, h.2.2.2.2.2.1⟩

/-- C5 as amended: when every attempt fails, _execute_job consumes the
failures (it is a total function), finalises a FAILED record whose
error is the message of the last failure (the fixed timed-out string
for a timeout), leaves retries at its initial value 0, sets no result,
and makes exactly max_retries+1 attempts. -/
theorem c5_execute_job_all_fail_spec {ρ : Type} (job : Job)
    (startedAt completedAt : PyDateTime) (outcomes : Nat → Outcome ρ)
    (jitter : Nat → ℚ)
    (hf : ∀ i, (outcomes i).isSuccess = false) :
    (Homeworq.execute_job job startedAt completedAt outcomes jitter).exec.status =
        Status.failed
    ∧ (Homeworq.execute_job job startedAt completedAt outcomes jitter).exec.error =
        some (Outcome.msg (outcomes (job.maxRetries.getD 0)))
    ∧ (outcomes (job.maxRetries.getD 0) = Outcome.timeout →
        (Homeworq.execute_job job startedAt completedAt outcomes jitter).exec.error =
          some "Job execution timed out")
    ∧ (Homeworq.execute_job job startedAt completedAt outcomes jitter).exec.result = none
    ∧ (Homeworq.execute_job job startedAt completedAt outcomes jitter).exec.retries = 0
    ∧ (Homeworq.execute_job job startedAt completedAt outcomes jitter).attempts =
        job.maxRetries.getD 0 + 1 := by
  obtain ⟨h1, h2, h3⟩ := run_attempts_all_fail outcomes jitter
    (job.maxRetries.getD 0) hf (job.maxRetries.getD 0 + 2) 0 none
    (Nat.zero_le _) (by omega)
  refine ⟨?_, ?_, ?_, ?_, ?_, ?_⟩
  · simp [Homeworq.execute_job, h1]
  · simp [Homeworq.execute_job, h1, h2]
  · intro ht
    simp [Homeworq.execute_job, h1, h2, ht, Outcome.msg]
  · simp [Homeworq.execute_job, h1]
  · simp [Homeworq.execute_job, h1]
  · simp [Homeworq.execute_job, h3]

/-- The job used in the all-fail counterexample: one retry allowed. -/
def job_retry1 : Job :=
  { job_retry3 with maxRetries := some 1 }

/-- The job of the boundary case in the claim: no retries allowed. -/
def job_retry0 : Job :=
  { job_retry3 with maxRetries := some 0 }

/-- Attempt outcomes that always raise. -/
def outcomes_always_fail : Nat → Outcome Nat :=
  fun _ => Outcome.failure "boom"

/-- C5 counterexample: with max_retries = 1 and every attempt failing,
two attempts are made but the finalised record has retries = 0 (the
retries field is only assigned on success), not the claimed number of
attempts made. -/
theorem c5_counterexample_retries_stay_zero :
    (Homeworq.execute_job job_retry1 ⟨2025, 1, 1, 12, 0, 0⟩ ⟨2025, 1, 1, 12, 0, 5⟩
        outcomes_always_fail (fun _ => 0)).attempts = 2
    ∧ (Homeworq.execute_job job_retry1 ⟨2025, 1, 1, 12, 0, 0⟩ ⟨2025, 1, 1, 12, 0, 5⟩
        outcomes_always_fail (fun _ => 0)).exec.status = Status.failed
    ∧ (Homeworq.execute_job job_retry1 ⟨2025, 1, 1, 12, 0, 0⟩ ⟨2025, 1, 1, 12, 0, 5⟩
        outcomes_always_fail (fun _ => 0)).exec.retries = 0 :=
  ⟨rfl, rfl, rfl⟩

/-- Witness for C5 at the boundary case of the claim: max_retries = 0,
always failing, one attempt, FAILED with retries = 0. -/
theorem c5_execute_job_all_fail_spec_witness :
    (Homeworq.execute_job job_retry0 ⟨2025, 1, 1, 12, 0, 0⟩ ⟨2025, 1, 1, 12, 0, 5⟩
        outcomes_always_fail (fun _ => 0)).exec.status = Status.failed
    ∧ (Homeworq.execute_job job_retry0 ⟨2025, 1, 1, 12, 0, 0⟩ ⟨2025, 1, 1, 12, 0, 5⟩
        outcomes_always_fail (fun _ => 0)).exec.error =
        some (Outcome.msg (outcomes_always_fail 0))
    ∧ (outcomes_always_fail 0 = Outcome.timeout →
        (Homeworq.execute_job job_retry0 ⟨2025, 1, 1, 12, 0, 0⟩ ⟨2025, 1, 1, 12, 0, 5⟩
          outcomes_always_fail (fun _ => 0)).exec.error =
          some "Job execution timed out")
    ∧ (Homeworq.execute_job job_retry0 ⟨2025, 1, 1, 12, 0, 0⟩ ⟨2025, 1, 1, 12, 0, 5⟩
        outcomes_always_fail (fun _ => 0)).exec.result = none
    ∧ (Homeworq.execute_job job_retry0 ⟨2025, 1, 1, 12, 0, 0⟩ ⟨2025, 1, 1, 12, 0, 5⟩
        outcomes_always_fail (fun _ => 0)).exec.retries = 0
    ∧ (Homeworq.execute_job job_retry0 ⟨2025, 1, 1, 12, 0, 0⟩ ⟨2025, 1, 1, 12, 0, 5⟩
        outcomes_always_fail (fun _ => 0)).attempts = 1 :=
  c5_execute_job_all_fail_spec job_retry0 ⟨2025, 1, 1, 12, 0, 0⟩ ⟨2025, 1, 1, 12, 0, 5⟩
    outcomes_always_fail (fun _ => 0) (fun _ => rfl)

/-- Clock environments for the execution counterexample. -/
def env_exec_start : TimeEnv :=
  { utcNow := ⟨2025, 1, 1, 12, 0, 0⟩, localNow := ⟨2025, 1, 1, 13, 0, 0⟩ }

/-- Completion-side clock environment for the execution counterexample. -/
def env_exec_end : TimeEnv :=
  { utcNow := ⟨2025, 1, 1, 12, 0, 5⟩, localNow := ⟨2025, 1, 1, 13, 0, 5⟩ }

/-- C6 counterexample: after a full execution the job object still has
last_run = none even though the created record has a started_at
instant; _execute_job never assigns job.last_run. -/
theorem c6_counterexample_last_run_never_set :
    (Homeworq.execute_job_env job_retry3 env_exec_start env_exec_end
        outcomes_one_fail (fun _ => 0)).job.lastRun = none
    ∧ (Homeworq.execute_job_env job_retry3 env_exec_start env_exec_end
        outcomes_one_fail (fun _ => 0)).exec.startedAt = ⟨2025, 1, 1, 12, 0, 0⟩ := by
  constructor
  · rfl
  · rfl

/-- C6 as amended: _execute_job records the UTC start instant into the
created record (started_at) and the UTC completion instant, but leaves
the job object entirely unchanged; in particular job.last_run is not
set to the start instant. -/
theorem c6_execute_job_records_utc_and_leaves_job {ρ : Type} (job : Job)
    (envStart envEnd : TimeEnv) (outcomes : Nat → Outcome ρ) (jitter : Nat → ℚ) :
    (Homeworq.execute_job_env job envStart envEnd outcomes jitter).job = job
    ∧ (Homeworq.execute_job_env job envStart envEnd outcomes jitter).exec.startedAt =
        envStart.utcNow
    ∧ (Homeworq.execute_job_env job envStart envEnd outcomes jitter).exec.completedAt =
        some envEnd.utcNow := by
  rcases hr : (run_attempts outcomes jitter (job.maxRetries.getD 0)
      (job.maxRetries.getD 0 + 2) 0 none).succeeded with _ | ⟨res, rc⟩ <;>
    exact ⟨rfl, by simp [Homeworq.execute_job_env, Homeworq.execute_job, hr],
      by simp [Homeworq.execute_job_env, Homeworq.execute_job, hr]⟩

/-- C9 as amended: the execution record timestamps come from the UTC
clock, while _calculate_next_run and _can_run_job take their reference
instant from the naive local clock; the two agree exactly when the
local clock reads the same instant as the UTC clock. -/
theorem c9_clock_selection {ρ : Type} (job : Job)
    (executions : List (JobExecution ρ)) (env envEnd : TimeEnv)
    (outcomes : Nat → Outcome ρ) (jitter : Nat → ℚ) :
    (Homeworq.execute_job_env job env envEnd outcomes jitter).exec.startedAt =
        env.utcNow
    ∧ (Homeworq.execute_job_env job env envEnd outcomes jitter).exec.completedAt =
        some envEnd.utcNow
    ∧ Homeworq.can_run_job_env job executions env =
        Homeworq.can_run_job job executions env.localNow
    ∧ Homeworq.calculate_next_run_env job env =
        Homeworq.calculate_next_run job env.localNow
    ∧ (env.localNow = env.utcNow →
        Homeworq.can_run_job_env job executions env =
          Homeworq.can_run_job job executions env.utcNow) := by
  refine ⟨?_, ?_, rfl, rfl, ?_⟩
  · rcases hr : (run_attempts outcomes jitter (job.maxRetries.getD 0)
        (job.maxRetries.getD 0 + 2) 0 none).succeeded with _ | ⟨res, rc⟩ <;>
      simp [Homeworq.execute_job_env, Homeworq.execute_job, hr]
  · rcases hr : (run_attempts outcomes jitter (job.maxRetries.getD 0)
        (job.maxRetries.getD 0 + 2) 0 none).succeeded with _ | ⟨res, rc⟩ <;>
      simp [Homeworq.execute_job_env, Homeworq.execute_job, hr]
  · intro hloc
    unfold Homeworq.can_run_job_env
    rw [hloc]

/-- A clock environment whose local clock agrees with UTC. -/
def env_sync : TimeEnv :=
  { utcNow := ⟨2025, 1, 1, 14, 0, 0⟩, localNow := ⟨2025, 1, 1, 14, 0, 0⟩ }

/-- Witness for C9: with local clock equal to UTC, the eligibility check
agrees with the UTC-referenced check. -/
theorem c9_clock_selection_witness :
    Homeworq.can_run_job_env job_start_1430 ([] : List (JobExecution Nat)) env_sync =
      Homeworq.can_run_job job_start_1430 ([] : List (JobExecution Nat))
        env_sync.utcNow :=
  (c9_clock_selection job_start_1430 ([] : List (JobExecution Nat)) env_sync env_sync
    (fun _ => Outcome.timeout) (fun _ => 0)).2.2.2.2 rfl

/-- The two schedule shapes of schemas.JobBase.schedule: a cron string
or an interval specification. -/
inductive Schedule where
  | cron (expr : String)
  | interval (interval : Nat) (unit : TimeUnit) (atTime : Option String)
deriving DecidableEq, Repr

/-- Embedding of schemas.JobCreate (options flattened): a task name,
parameter mapping, schedule shape and options. -/
structure JobCreate where
  task : String
  params : List (String × String)
  schedule : Schedule
  timeout : Option Nat
  maxRetries : Option Nat
  startDate : Option PyDateTime
  endDate : Option PyDateTime
deriving DecidableEq, Repr

/-- The row fields a schedule shape materialises into, in the order
(cron, interval, unit, at): the set shape fills its fields and the
other shape is nulled. -/
def schedule_row (s : Schedule) :
    Option String × Option Nat × Option TimeUnit × Option String :=
  match s with
  | .cron e => (some e, none, none, none)
  | .interval i u a => (none, some i, some u, a)

/-- The persisted job table together with the autoincrement counter. -/
structure Store where
  rows : List Job
  nextId : Nat
deriving DecidableEq, Repr

/-- Embedding of models.Job.from_schema on the path the startup
reconciliation takes (core.upsert_job calls it with is_default left
False, so the default-hash branch is not exercised): a fresh row with
an auto-assigned id and next_run initialised to the current instant. -/
def Job.from_schema (st : Store) (jc : JobCreate) (now : PyDateTime) : Store × Job :=
  let sr := schedule_row jc.schedule
  let job : Job :=
    { id := .auto st.nextId, taskName := jc.task, params := jc.params,
      scheduleCron := sr.1, scheduleInterval := sr.2.1,
      scheduleUnit := sr.2.2.1, scheduleAt := sr.2.2.2,
      timeout := jc.timeout, maxRetries := jc.maxRetries,
      startDate := jc.startDate, endDate := jc.endDate,
      lastRun := none, nextRun := some now }
  ({ rows := st.rows ++ [job], nextId := st.nextId + 1 }, job)

/-- Embedding of models.Job.update_from_schema applied to the update
built from a full JobCreate dump (as core.upsert_job does): params,
options and the schedule shape are all replaced, the discarded shape's
fields nulled, and the row identity kept. -/
def Job.update_from_schema (j : Job) (u : JobCreate) : Job :=
  let sr := schedule_row u.schedule
  { j with
    params := u.params,
    timeout := u.timeout,
    maxRetries := u.maxRetries,
    startDate := u.startDate,
    endDate := u.endDate,
    scheduleCron := sr.1,
    scheduleInterval := sr.2.1,
    scheduleUnit := sr.2.2.1,
    scheduleAt := sr.2.2.2 }

/-- Replace the first row satisfying the predicate (the row the filter
query returned and the source then mutates and saves). -/
def replace_first (p : Job → Bool) (r : Job) : List Job → List Job
  | [] => []
  | x :: xs => if p x then r :: xs else x :: replace_first p r xs

namespace Homeworq

/-- Embedding of Homeworq.upsert_job, the function the startup
reconciliation applies to every declared default job: the existing job
is looked up by task_name (source line 403); a hit is updated in place,
a miss creates a new row through Job.from_schema. -/
def upsert_job (st : Store) (jc : JobCreate) (now : PyDateTime) : Store × Job :=
  match st.rows.find? (fun r => r.taskName == jc.task) with
  | some r =>
    let r2 := Job.update_from_schema r jc
    ({ st with rows := replace_first (fun x => x.taskName == jc.task) r2 st.rows },
      r2)
  | none => Job.from_schema st jc now

end Homeworq

/-- An hourly interval schedule. -/
def sched_hourly : Schedule := .interval 1 TimeUnit.hours none

/-- A default-job spec with parameter k = 1. -/
def jc_params1 : JobCreate :=
  { task := "t", params := [("k", "1")], schedule := sched_hourly,
    timeout := none, maxRetries := none, startDate := none, endDate := none }

/-- The same task with different params, k = 2. -/
def jc_params2 : JobCreate :=
  { task := "t", params := [("k", "2")], schedule := sched_hourly,
    timeout := none, maxRetries := none, startDate := none, endDate := none }

/-- The empty store with the autoincrement counter at 1. -/
def store0 : Store := { rows := [], nextId := 1 }

/-- C2 counterexample: upserting the same task with different params
does not create a second job; the row count stays 1, the surviving row
carries the second params, and its id is the autoincrement value 1, not
a hash string. -/
theorem c2_counterexample_same_task_different_params_updates :
    ((Homeworq.upsert_job (Homeworq.upsert_job store0 jc_params1
        ⟨2025, 1, 1, 0, 0, 0⟩).1 jc_params2 ⟨2025, 1, 1, 0, 0, 0⟩).1).rows.length = 1
    ∧ ((Homeworq.upsert_job (Homeworq.upsert_job store0 jc_params1
        ⟨2025, 1, 1, 0, 0, 0⟩).1 jc_params2 ⟨2025, 1, 1, 0, 0, 0⟩).1).rows.map Job.id =
        [JobId.auto 1]
    ∧ ((Homeworq.upsert_job (Homeworq.upsert_job store0 jc_params1
        ⟨2025, 1, 1, 0, 0, 0⟩).1 jc_params2 ⟨2025, 1, 1, 0, 0, 0⟩).1).rows.map
        Job.params = [[("k", "2")]] :=
  ⟨rfl, rfl, rfl⟩

/-- C2 as amended: startup reconciliation through Homeworq.upsert_job is
keyed by task name.  Starting from an empty store, a second upsert with
the same task name (equal or different params) leaves exactly one row,
preserves the identity assigned by the first upsert, and replaces the
params with the second spec's params. -/
theorem c2_upsert_job_keyed_by_task_name (jc1 jc2 : JobCreate)
    (now1 now2 : PyDateTime) (h : jc1.task = jc2.task) :
    ((Homeworq.upsert_job (Homeworq.upsert_job store0 jc1 now1).1 jc2 now2).1).rows.length = 1
    ∧ ((Homeworq.upsert_job (Homeworq.upsert_job store0 jc1 now1).1 jc2 now2).2).id =
        ((Homeworq.upsert_job store0 jc1 now1).2).id
    ∧ ((Homeworq.upsert_job (Homeworq.upsert_job store0 jc1 now1).1 jc2 now2).2).params =
        jc2.params := by
  refine ⟨?_, ?_, ?_⟩ <;>
    simp [Homeworq.upsert_job, store0, Job.from_schema, Job.update_from_schema,
      replace_first, h]

/-- Witness for C2 at the concrete specs with equal task and different
params. -/
theorem c2_upsert_job_keyed_by_task_name_witness :
    ((Homeworq.upsert_job (Homeworq.upsert_job store0 jc_params1
        ⟨2025, 1, 1, 0, 0, 0⟩).1 jc_params2 ⟨2025, 1, 2, 0, 0, 0⟩).1).rows.length = 1
    ∧ ((Homeworq.upsert_job (Homeworq.upsert_job store0 jc_params1
        ⟨2025, 1, 1, 0, 0, 0⟩).1 jc_params2 ⟨2025, 1, 2, 0, 0, 0⟩).2).id =
        ((Homeworq.upsert_job store0 jc_params1 ⟨2025, 1, 1, 0, 0, 0⟩).2).id
    ∧ ((Homeworq.upsert_job (Homeworq.upsert_job store0 jc_params1
        ⟨2025, 1, 1, 0, 0, 0⟩).1 jc_params2 ⟨2025, 1, 2, 0, 0, 0⟩).2).params =
        jc_params2.params :=
  c2_upsert_job_keyed_by_task_name jc_params1 jc_params2
    ⟨2025, 1, 1, 0, 0, 0⟩ ⟨2025, 1, 2, 0, 0, 0⟩ rfl

/-- Witness for C3: a cron-free interval job with no prior execution and
start/end unset is eligible. -/
theorem c3_can_run_job_characterisation_witness :
    Homeworq.can_run_job job_daily_0200 ([] : List (JobExecution Nat))
      ⟨2025, 1, 1, 3, 0, 0⟩ = .ok true :=
  (c3_can_run_job_characterisation job_daily_0200 ([] : List (JobExecution Nat))
      ⟨2025, 1, 1, 3, 0, 0⟩).mpr
    ⟨(by simp [job_daily_0200]), (by simp [job_daily_0200]), Or.inl rfl⟩

/-- Embedding of schemas.Settings (the fields the engine lifecycle
reads). -/
structure Settings where
  apiOn : Bool
  apiAuth : Bool
  apiHost : String
  apiPort : Nat
  debug : Bool
  logPath : Option String
  dbUri : String
deriving DecidableEq, Repr

/-- The engine state the lifecycle methods manipulate: the running
flag, the store connection, the API and scheduler tasks, the job table
and the per-job task registry. -/
structure Engine where
  running : Bool
  dbConnected : Bool
  apiInited : Bool
  apiStarted : Bool
  schedulerSpawned : Bool
  store : Store
  jobTasks : List Nat
deriving DecidableEq, Repr

namespace Homeworq

/-- Embedding of Homeworq.start: an early return when already running,
otherwise connect the store, optionally bring up the API, set running,
spawn the scheduler and upsert every declared default job. -/
def start (settings : Settings) (defaults : List JobCreate) (now : PyDateTime)
    (e : Engine) : Engine :=
  if e.running then e
  else
    let e1 := { e with dbConnected := true }
    let e2 := if settings.apiOn then { e1 with apiInited := true, apiStarted := true }
      else e1
    let e3 := { e2 with running := true, schedulerSpawned := true }
    { e3 with store := defaults.foldl (fun s jc => (upsert_job s jc now).1) e3.store }

/-- Embedding of Homeworq.stop: an early return when not running,
otherwise disconnect the store, clear running, cancel and drop the job
tasks, the scheduler task and the API task. -/
def stop (e : Engine) : Engine :=
  if !e.running then e
  else
    { e with
      dbConnected := false,
      running := false,
      jobTasks := [],
      schedulerSpawned := false,
      apiStarted := false }

end Homeworq

/-- C10: start on a running engine and stop on a stopped engine are
exact no-ops: every field of the engine state is left unchanged, no
store connection is opened or closed, no task spawned or cancelled, no
default job upserted. -/
theorem c10_start_stop_idempotent_on_fixed_points (settings : Settings)
    (defaults : List JobCreate) (now : PyDateTime) (eOn eOff : Engine)
    (h1 : eOn.running = true) (h2 : eOff.running = false) :
    Homeworq.start settings defaults now eOn = eOn ∧ Homeworq.stop eOff = eOff := by
  constructor
  · simp [Homeworq.start, h1]
  · simp [Homeworq.stop, h2]

/-- A running engine. -/
def engine_on : Engine :=
  { running := true, dbConnected := true, apiInited := false, apiStarted := false,
    schedulerSpawned := true, store := store0, jobTasks := [7] }

/-- A stopped engine. -/
def engine_off : Engine :=
  { running := false, dbConnected := false, apiInited := false, apiStarted := false,
    schedulerSpawned := false, store := store0, jobTasks := [] }

/-- Default settings for the lifecycle witness. -/
def settings0 : Settings :=
  { apiOn := false, apiAuth := false, apiHost := "localhost", apiPort := 8000,
    debug := false, logPath := none, dbUri := "sqlite://homeworq.db" }

/-- Witness for C10 at concrete engine states. -/
theorem c10_start_stop_idempotent_witness :
    Homeworq.start settings0 [jc_params1] ⟨2025, 1, 1, 0, 0, 0⟩ engine_on = engine_on
    ∧ Homeworq.stop engine_off = engine_off :=
  c10_start_stop_idempotent_on_fixed_points settings0 [jc_params1]
    ⟨2025, 1, 1, 0, 0, 0⟩ engine_on engine_off rfl rfl
